import Mathlib

/-!
Shallow embedding of the recommendation-orchestration core of the
outfit_ai repository (src/app.py), together with theorems settling the
specification claims about it.

Modelling conventions:
- Python dict keys that may be absent, and object attributes that may be
  absent or None, are modelled as `Option` fields; `d.get(k, default)`
  becomes `Option.getD`.
- Python attribute access on a possibly-None object (which raises
  AttributeError when the object is None) is modelled by `pyAttr`,
  returning `Except Unit`.
- Network calls and generative calls are modelled as explicit
  `Except`-valued parameters: `.ok` is a response, `.error` is a raised
  exception caught by the surrounding try/except of the source.
- Machine strings are Lean `String`; the source only manipulates them by
  concatenation, join, split, strip and lower, all reproduced exactly.
-/

/-- Simulated Twitter style profile: the value built by
`get_twitter_style_data` in src/app.py (keys `fashion_interests`,
`color_preferences`, `recent_fashion_tweets`); tweets are modelled by
their `text` field, the only field the code reads. -/
structure TwitterData where
  fashion_interests : List String
  color_preferences : List String
  recent_fashion_tweets : List String
deriving DecidableEq, Repr

/-- The `twitter_context` list built inside
`enhance_prompt_with_twitter_data` (src/app.py lines 406-417): one
sentence per non-empty signal category, in fixed order. -/
def twitterContext (td : TwitterData) : List String :=
  (if td.fashion_interests.isEmpty then [] else
    ["User is interested in these fashion styles: " ++
      String.intercalate (", ") td.fashion_interests ++ "."]) ++
  (if td.color_preferences.isEmpty then [] else
    ["User tends to prefer these colors: " ++
      String.intercalate (", ") td.color_preferences ++ "."]) ++
  (if td.recent_fashion_tweets.isEmpty then [] else
    ["Based on recent Twitter activity, the user has mentioned: " ++
      String.intercalate (" | ") (td.recent_fashion_tweets.take 3)])

/-- Embedding of `enhance_prompt_with_twitter_data` (src/app.py lines
396-423). A falsy `twitter_data` (None) returns the base prompt
unchanged; otherwise the non-empty `twitter_context` sentences are
joined with spaces and appended after a fixed header. -/
def enhance_prompt_with_twitter_data (base_prompt : String)
    (twitter_data : Option TwitterData) : String :=
  match twitter_data with
  | none => base_prompt
  | some td =>
    if (twitterContext td).isEmpty then base_prompt
    else base_prompt ++
      "\n\nConsider the user\x27s personal style preferences based on Twitter data: " ++
      String.intercalate (" ") (twitterContext td)

/-- The PromptPayload record of the spec data model: base text,
augmented text and the personalization flag. -/
structure PromptPayload where
  base_text : String
  augmented_text : String
  used_personalization : Bool
deriving DecidableEq, Repr

/-- Embedding of the Analyze Image handler logic around the prompt
(src/app.py lines 561-568): if `twitter_data` is truthy the prompt is
enhanced and `using_personalization` is set to True, otherwise the base
prompt is used and the flag is False. -/
def analyze_image_prompt (base_prompt : String)
    (twitter_data : Option TwitterData) : PromptPayload :=
  match twitter_data with
  | some td =>
    { base_text := base_prompt
      augmented_text := enhance_prompt_with_twitter_data base_prompt (some td)
      used_personalization := true }
  | none =>
    { base_text := base_prompt
      augmented_text := base_prompt
      used_personalization := false }

/-- Embedding of `get_twitter_style_data` (src/app.py lines 359-394).
The body of the try block (the fetch of social data, simulated in the
source) is abstracted as a stream of possible attempts; the code makes
exactly one attempt, so only `attempts 0` is ever consulted. A missing
client returns None before any attempt; a raising attempt is caught and
None is returned. -/
def get_twitter_style_data (pinai_client : Bool)
    (attempts : Nat → Except String TwitterData) : Option TwitterData :=
  if pinai_client = false then none
  else
    match attempts 0 with
    | .ok d => some d
    | .error _ => none

/-- Spec-side helper: a component sentence is present exactly when its
signal list is non-empty. -/
def sentenceIf (present : Bool) (sentence : String) : List String :=
  if present then [sentence] else []

/-- Spec-side helper: append a joined context to the base prompt, or
leave the base prompt unchanged when there are no context sentences. -/
def appendContext (base_prompt : String) (parts : List String) : String :=
  if parts.isEmpty then base_prompt
  else base_prompt ++
    "\n\nConsider the user\x27s personal style preferences based on Twitter data: " ++
    String.intercalate (" ") parts

/-- The interests sentence of the composed context. -/
def interestsSentence (td : TwitterData) : String :=
  "User is interested in these fashion styles: " ++
    String.intercalate (", ") td.fashion_interests ++ "."

/-- The colors sentence of the composed context. -/
def colorsSentence (td : TwitterData) : String :=
  "User tends to prefer these colors: " ++
    String.intercalate (", ") td.color_preferences ++ "."

/-- The recent-snippets sentence of the composed context (at most 3
snippets, joined with a vertical-bar delimiter). -/
def tweetsSentence (td : TwitterData) : String :=
  "Based on recent Twitter activity, the user has mentioned: " ++
    String.intercalate (" | ") (td.recent_fashion_tweets.take 3)

/-- A normalized price object: the two-key dict built by the Shopify
normalizations in src/app.py. -/
structure Price where
  amount : String
  currency : String
deriving DecidableEq, Repr

/-- One entry of the `variants` array of an Admin API product; the code
reads only `variant.get("price")`. -/
structure AdminVariant where
  price : Option String
deriving DecidableEq, Repr

/-- One entry of the `images` array of an Admin API product; the code
reads only `image.get("src")`. -/
structure AdminImage where
  src : Option String
deriving DecidableEq, Repr

/-- A raw product dict of the Admin API response body; every key the
code touches may be absent. -/
structure AdminProduct where
  id : Option Nat
  title : Option String
  body_html : Option String
  handle : Option String
  variants : Option (List AdminVariant)
  images : Option (List AdminImage)
deriving DecidableEq, Repr

/-- The Admin API HTTP response: a status code and, when the body has a
`products` key, its list. -/
structure AdminResponse where
  status_code : Nat
  products : Option (List AdminProduct)
deriving DecidableEq, Repr

/-- The normalized admin-tier `product_info` dict (src/app.py lines
120-145): id, title, description, handle, handle-derived url, price
from the first variant, image url from the first image. -/
structure AdminProductInfo where
  id : Option Nat
  title : String
  description : String
  handle : String
  url : String
  price : Option Price
  image_url : Option String
deriving DecidableEq, Repr

/-- Embedding of the admin-tier normalization of one product
(src/app.py lines 120-145). The price is taken from the first variant
when the `variants` list is present and non-empty and the variant price
is truthy (present and not the empty string); the currency is the
literal string USD (source comment: Default to USD). The image url is
`images[0].get("src")` when the `images` list is present and
non-empty. -/
def normalizeAdminProduct (base_url : String) (product : AdminProduct) :
    AdminProductInfo :=
  { id := product.id
    title := product.title.getD ("No title")
    description := product.body_html.getD ("No description")
    handle := product.handle.getD ("")
    url := base_url ++ "/products/" ++ product.handle.getD ("")
    price :=
      match product.variants with
      | some (variant :: _) =>
        match variant.price with
        | some p => if p = "" then none else some { amount := p, currency := "USD" }
        | none => none
      | _ => none
    image_url :=
      match product.images with
      | some (image :: _) => image.src
      | _ => none }

/-- The `minVariantPrice` object of a Storefront API node. -/
structure MinVariantPrice where
  amount : Option String
  currencyCode : Option String
deriving DecidableEq, Repr

/-- The `priceRange` object of a Storefront API node. -/
structure PriceRange where
  minVariantPrice : Option MinVariantPrice
deriving DecidableEq, Repr

/-- One image node of a Storefront API product (the code reads
`edges[0]["node"].get("url", "")`; the edge wrapper is collapsed into
the node it carries). -/
structure StorefrontImage where
  url : Option String
deriving DecidableEq, Repr

/-- A raw Storefront API product node; every key the code touches may
be absent. The `onlineStoreUrl` key is special: the GraphQL query
selects it explicitly and its schema type is nullable, so the key can
be present with a null value; Python dict.get substitutes its default
only when the key is absent, not when its value is None. The outer
Option is key presence; the inner Option is null versus string. -/
structure StorefrontNode where
  id : Option String
  title : Option String
  description : Option String
  handle : Option String
  onlineStoreUrl : Option (Option String)
  priceRange : Option PriceRange
  imageEdges : Option (List StorefrontImage)
deriving DecidableEq, Repr

/-- The Storefront API HTTP response: a status code and, when the body
has the `data.products.edges` path, its list of nodes (the `edge.node`
wrapper is collapsed). -/
structure StorefrontResponse where
  status_code : Nat
  edges : Option (List StorefrontNode)
deriving DecidableEq, Repr

/-- The normalized storefront-tier product dict (src/app.py lines
209-232): id, title, description, url (online store url, null when the
key is present with a null value, or the handle-derived fallback when
the key is absent), minimum variant price, first image url. -/
structure StorefrontProductInfo where
  id : String
  title : String
  description : String
  url : Option String
  price : Option Price
  image_url : Option String
deriving DecidableEq, Repr

/-- Embedding of the storefront-tier normalization of one node
(src/app.py lines 209-232). The url is
`node.get("onlineStoreUrl", fallback)`: the value itself (possibly
null) when the key is present, the handle-derived fallback only when
the key is absent. -/
def normalizeStorefrontNode (base_url : String) (node : StorefrontNode) :
    StorefrontProductInfo :=
  { id := node.id.getD ("")
    title := node.title.getD ("No title")
    description := node.description.getD ("")
    url :=
      match node.onlineStoreUrl with
      | some v => v
      | none => some (base_url ++ "/products/" ++ node.handle.getD (""))
    price :=
      match node.priceRange with
      | some pr =>
        match pr.minVariantPrice with
        | some mp => some { amount := mp.amount.getD (""), currency := mp.currencyCode.getD ("USD") }
        | none => none
      | none => none
    image_url :=
      match node.imageEdges with
      | some (image :: _) => some (image.url.getD (""))
      | _ => none }

/-- A row of the list returned by `ShopifyConnector.search_products`:
either an admin-tier dict (which carries a `handle` key) or a
storefront-tier dict (which does not). -/
inductive ShopifyRow
  | admin (info : AdminProductInfo)
  | storefront (info : StorefrontProductInfo)
deriving DecidableEq, Repr

/-- Embedding of `ShopifyConnector.search_products` (src/app.py lines
89-238). The two HTTP calls are passed as `Except`-valued parameters
(`.error` is a raised request exception, caught by the try/except of
each tier). The admin tier runs when admin headers are configured; it
returns its normalized products immediately when the response is 200
and the body has a non-empty `products` list, leaving `products` empty
otherwise. The storefront tier runs only when storefront headers are
configured and `products` is still empty. The `limit` argument is only
forwarded to the remote APIs and does not shape the normalization, so
it is not a parameter of the embedding. -/
def ShopifyConnector.search_products (admin_headers storefront_headers : Bool)
    (base_url : String) (admin_result : Except Unit AdminResponse)
    (storefront_result : Except Unit StorefrontResponse) : List ShopifyRow :=
  let adminRows : List ShopifyRow :=
    if admin_headers then
      match admin_result with
      | .ok response =>
        if response.status_code = 200 then
          match response.products with
          | some (p :: ps) =>
            (p :: ps).map (fun product => .admin (normalizeAdminProduct base_url product))
          | _ => []
        else []
      | .error _ => []
    else []
  if adminRows.isEmpty = false then adminRows
  else if storefront_headers then
    match storefront_result with
    | .ok response =>
      if response.status_code = 200 then
        match response.edges with
        | some edges =>
          edges.map (fun node => .storefront (normalizeStorefrontNode base_url node))
        | none => []
      else []
    | .error _ => []
  else []

/-- Python attribute access on a possibly-None object: raises
(AttributeError) when the object is None. -/
def pyAttr {α : Type} (o : Option α) : Except Unit α :=
  match o with
  | some a => .ok a
  | none => .error ()

/-- The `title` object of an Amazon item; `display_value` may be
absent, in which case the source getattr supplies its default. -/
structure TitleObj where
  display_value : Option String
deriving DecidableEq, Repr

/-- The brand object of an Amazon item, read dict-style by the source
through `.get`, so an absent `display_value` yields None. -/
structure Brand where
  display_value : Option String
deriving DecidableEq, Repr

/-- The `by_line_info` object of an Amazon item; `brand` may be absent
(the source getattr then supplies an empty dict). -/
structure ByLineInfo where
  brand : Option Brand
deriving DecidableEq, Repr

/-- The `item_info` object of an Amazon item. -/
structure ItemInfo where
  title : Option TitleObj
  by_line_info : Option ByLineInfo
deriving DecidableEq, Repr

/-- The price object of an Amazon offer listing. `amount` may be absent
(guarded by hasattr in the source); `currency` may also be absent, but
the source reads it unguarded, which raises. -/
structure PriceObj where
  amount : Option String
  currency : Option String
deriving DecidableEq, Repr

/-- One offer listing of an Amazon item; its `price` attribute may be
None, in which case the hasattr guard of the source skips the price. -/
structure Listing where
  price : Option PriceObj
deriving DecidableEq, Repr

/-- The `offers` object of an Amazon item. -/
structure Offers where
  listings : List Listing
deriving DecidableEq, Repr

/-- The large rendition of an Amazon primary image. -/
structure LargeImage where
  url : String
deriving DecidableEq, Repr

/-- The primary image of an Amazon item; its `large` rendition may be
None, but the source reads `primary.large.url` unguarded, which
raises. -/
structure PrimaryImage where
  large : Option LargeImage
deriving DecidableEq, Repr

/-- The `images` object of an Amazon item. -/
structure AmazonImages where
  primary : Option PrimaryImage
deriving DecidableEq, Repr

/-- A raw Amazon search-result item; `item_info`, `offers` and `images`
may each be absent or None. -/
structure AmazonItem where
  item_info : Option ItemInfo
  detail_page_url : String
  offers : Option Offers
  images : Option AmazonImages
deriving DecidableEq, Repr

/-- The Amazon search-result wrapper: its `items` list. -/
structure AmazonSearchResult where
  items : List AmazonItem
deriving DecidableEq, Repr

/-- The product dict built by `search_amazon_products` (src/app.py
lines 470-492): keys title, url, price (a preformatted
currency-space-amount string), image, rating. -/
structure AmazonProduct where
  title : String
  url : String
  price : Option String
  image : Option String
  rating : Option String
deriving DecidableEq, Repr

/-- Embedding of the per-item extraction of `search_amazon_products`
(src/app.py lines 470-492). Accesses the source performs unguarded on
possibly-None objects go through `pyAttr` and can raise:
`item.item_info.title` (line 471, raises when item_info is None),
`price_info.currency` inside the f-string (line 482, guarded only for
`amount` by hasattr), and `item.images.primary.large.url` (line 486,
guarded only down to `primary`). The hasattr/truthiness guards of the
source are the surrounding matches. -/
def extractAmazonItem (item : AmazonItem) : Except Unit AmazonProduct := do
  let info ← pyAttr item.item_info
  let title :=
    match info.title with
    | some t => t.display_value.getD ("No title available")
    | none => "No title available"
  let price ← (match item.offers with
    | some offers =>
      match offers.listings with
      | listing :: _ =>
        match listing.price with
        | some price_info =>
          match price_info.amount with
          | some amount => do
            let currency ← pyAttr price_info.currency
            pure (some (currency ++ " " ++ amount))
          | none => pure none
        | none => pure none
      | [] => pure none
    | none => pure none)
  let image ← (match item.images with
    | some images =>
      match images.primary with
      | some primary => do
        let large ← pyAttr primary.large
        pure (some large.url)
      | none => pure none
    | none => pure none)
  let rating :=
    match info.by_line_info with
    | some bli =>
      match bli.brand with
      | some brand => brand.display_value
      | none => none
    | none => none
  pure { title := title, url := item.detail_page_url, price := price,
         image := image, rating := rating }

/-- Embedding of `search_amazon_products` (src/app.py lines 455-497).
A missing client returns None; otherwise the search call and the
extraction loop run under one try/except, so a raising call or a
raising item aborts the whole function, the handler catches, and None
is returned (any partially extracted products are discarded with the
local list). The loop runs over `items[:limit]`. -/
def search_amazon_products (amazon_client : Bool)
    (search_result : Except Unit AmazonSearchResult) (limit : Nat) :
    Option (List AmazonProduct) :=
  if amazon_client = false then none
  else
    match (do
      let sr ← search_result
      (sr.items.take limit).mapM extractAmazonItem : Except Unit (List AmazonProduct)) with
    | .ok products => some products
    | .error _ => none

/-- A JSON-style value of a normalized product dict: null, a string, a
number, or a nested price object. -/
inductive JVal
  | null
  | str (s : String)
  | num (n : Nat)
  | priceObj (p : Price)
deriving DecidableEq, Repr

/-- An optional string rendered as a dict value. -/
def optStr : Option String → JVal
  | some s => .str s
  | none => .null

/-- An optional price rendered as a dict value. -/
def optPrice : Option Price → JVal
  | some p => .priceObj p
  | none => .null

/-- An optional number rendered as a dict value. -/
def optNum : Option Nat → JVal
  | some n => .num n
  | none => .null

/-- The admin-tier product dict exactly as built at src/app.py lines
120-145, as an ordered key-value list. -/
def AdminProductInfo.toDict (p : AdminProductInfo) : List (String × JVal) :=
  [("id", optNum p.id),
   ("title", .str p.title),
   ("description", .str p.description),
   ("handle", .str p.handle),
   ("url", .str p.url),
   ("price", optPrice p.price),
   ("image_url", optStr p.image_url)]

/-- The storefront-tier product dict exactly as built at src/app.py
lines 225-232, as an ordered key-value list. -/
def StorefrontProductInfo.toDict (p : StorefrontProductInfo) : List (String × JVal) :=
  [("id", .str p.id),
   ("title", .str p.title),
   ("description", .str p.description),
   ("url", optStr p.url),
   ("price", optPrice p.price),
   ("image_url", optStr p.image_url)]

/-- The Amazon product dict exactly as built at src/app.py lines
470-476 and mutated through line 490, as an ordered key-value list. -/
def AmazonProduct.toDict (p : AmazonProduct) : List (String × JVal) :=
  [("title", .str p.title),
   ("url", .str p.url),
   ("price", optStr p.price),
   ("image", optStr p.image),
   ("rating", optStr p.rating)]

/-- Modelled from the spec: the normalized Product shape of the data
model section, with keys id, title, url, price, image_url,
source_catalog. No definition in the source builds this shape; it is
stated from the words of the spec for comparison with the shapes the
code builds. -/
def specProductKeys : List String :=
  ["id", "title", "url", "price", "image_url", "source_catalog"]

/-- Modelled from the spec: the admin-tier price in the store default
currency. The store default currency is not represented anywhere in the
source (the code hardcodes USD), so it is a parameter here, following
the spec words: first variant price in the store default currency. -/
def specAdminPrice (store_default_currency : String) (product : AdminProduct) :
    Option Price :=
  match product.variants with
  | some (variant :: _) =>
    match variant.price with
    | some p => if p = "" then none
      else some { amount := p, currency := store_default_currency }
    | none => none
  | _ => none

/-- A regex word character (the backslash-w class over the ASCII range
the pipeline produces): alphanumeric or underscore. -/
def isWordChar (c : Char) : Bool := c.isAlphanum || c = '_'

/-- A Python whitespace character (the backslash-s class and the
characters str.strip removes, over ASCII). -/
def isSpaceChar (c : Char) : Bool :=
  c = ' ' || c = '\t' || c = '\n' || c = '\r' || c = '\x0b' || c = '\x0c'

/-- A character of the bracket class word-or-space used by the fallback
pattern of `extract_search_terms`. -/
def isWordOrSpace (c : Char) : Bool := isWordChar c || isSpaceChar c

/-- The garment keywords of the fallback pattern (src/app.py line 452),
in alternation order. -/
def garmentKeywords : List (List Char) :=
  [("jacket").data, ("shirt").data, ("pants").data, ("shoes").data,
   ("dress").data, ("hat").data, ("sweater").data, ("jeans").data,
   ("boots").data, ("sneakers").data, ("coat").data]

/-- The first garment keyword, in alternation order, matching at the
head of the given text. -/
def keywordAt (l : List Char) : Option (List Char) :=
  garmentKeywords.find? (fun kw => kw.isPrefixOf l)

/-- Greedy backtracking of the one-or-more word-or-space group of the
fallback pattern: starting from the longest admissible group length `k`
and going down to 1, find the first position after which a garment
keyword matches. -/
def bestMatchEnd (l : List Char) : Nat → Option (Nat × List Char)
  | 0 => none
  | k + 1 =>
    match keywordAt (l.drop (k + 1)) with
    | some kw => some (k + 1, kw)
    | none => bestMatchEnd l k

/-- One match attempt of the fallback pattern at the current position:
the group may extend at most over the maximal word-or-space run, and
the greedy group prefers the rightmost keyword within it. On success,
returns the captured group (run prefix plus keyword, as captured by the
single capturing group of the pattern) and the rest of the text after
the match. -/
def reMatchAt (l : List Char) : Option (List Char × List Char) :=
  match bestMatchEnd l (l.takeWhile isWordOrSpace).length with
  | some (k, kw) => some (l.take k ++ kw, l.drop (k + kw.length))
  | none => none

/-- The re.findall scan: try the pattern at each position from left to
right; on a match, emit the captured group and continue after the
match; otherwise advance one character. The fuel argument bounds the
recursion and is instantiated with more than the text length, which a
scan can never exceed. -/
def reFindAll : Nat → List Char → List (List Char)
  | 0, _ => []
  | _ + 1, [] => []
  | fuel + 1, c :: rest =>
    match reMatchAt (c :: rest) with
    | some (g, after) => g :: reFindAll fuel after
    | none => reFindAll fuel rest

/-- Lowercase an ASCII letter, leaving other characters alone. -/
def asciiLower (c : Char) : Char :=
  if 'A' ≤ c ∧ c ≤ 'Z' then Char.ofNat (c.toNat + 32) else c

/-- Python str.lower over the ASCII range the pipeline produces:
lowercase every character. -/
def pyLower (s : String) : String := String.mk (s.data.map asciiLower)

/-- Python str.strip: drop whitespace from both ends. -/
def pyStrip (s : String) : String :=
  String.mk (((s.data.dropWhile isSpaceChar).reverse.dropWhile isSpaceChar).reverse)

/-- The fallback extraction of `extract_search_terms` (src/app.py lines
452-453): findall of the garment pattern over the lowercased text, then
keep the stripped items whose stripped length exceeds 5. -/
def fallbackGarmentTerms (recommendation_text : String) : List String :=
  let lowered := pyLower recommendation_text
  let items := (reFindAll (lowered.data.length + 1) lowered.data).map
    (fun cs => String.mk cs)
  (items.map pyStrip).filter (fun item => 5 < item.length)

/-- The primary-path parse of `extract_search_terms` (src/app.py lines
446-448): strip the response text, split on commas, strip each term,
keep the non-empty ones. -/
def parsePrimaryTerms (response_text : String) : List String :=
  (((pyStrip response_text).splitOn (",")).map pyStrip).filter (fun term => term ≠ "")

/-- Embedding of `extract_search_terms` (src/app.py lines 425-453). The
generative call is passed as an `Except`-valued parameter: an `.ok`
response is parsed by the primary path; an `.error` (a raised call) is
caught and answered by the regex fallback over the recommendation
text. -/
def extract_search_terms (primary : Except String String)
    (recommendation_text : String) : List String :=
  match primary with
  | .ok response_text => parsePrimaryTerms response_text
  | .error _ => fallbackGarmentTerms recommendation_text

/-- Substring test over character lists. -/
def containsSeq (needle : List Char) : List Char → Bool
  | [] => needle.isPrefixOf []
  | c :: rest => needle.isPrefixOf (c :: rest) || containsSeq needle rest

/-- Concrete admin-tier raw product used to instantiate theorems. -/
def adminProductC1 : AdminProduct :=
  { id := some 11
    title := some "Wool Coat"
    body_html := some "Warm winter coat"
    handle := some "wool-coat"
    variants := some [{ price := some "59.00" }]
    images := some [{ src := some "https://cdn.example/coat.jpg" }] }

/-- Concrete storefront-tier raw node used to instantiate theorems. -/
def storefrontNodeC1 : StorefrontNode :=
  { id := some "gid-1"
    title := some "Storefront Coat"
    description := some "a coat"
    handle := some "storefront-coat"
    onlineStoreUrl := none
    priceRange := some { minVariantPrice := some { amount := some "49.00", currencyCode := some "EUR" } }
    imageEdges := some [{ url := some "https://cdn.example/sf.jpg" }] }

/-- Concrete storefront-tier raw node whose onlineStoreUrl key is
present with a null value (a product not published to the online
store): dict.get then returns None, not the handle-derived
fallback. -/
def storefrontNodeNullUrl : StorefrontNode :=
  { id := some "gid-2"
    title := some "Unpublished Coat"
    description := some "a coat"
    handle := some "unpublished-coat"
    onlineStoreUrl := some none
    priceRange := none
    imageEdges := none }

/-- Concrete Amazon item whose primary image is present but whose large
rendition is absent: the unguarded access of line 486 raises on it. -/
def amazonItemC2 : AmazonItem :=
  { item_info := some { title := some { display_value := some "Wool Sweater" }, by_line_info := none }
    detail_page_url := "https://amazon.example/item"
    offers := none
    images := some { primary := some { large := none } } }

/-- Concrete Amazon item with price listing, primary image and brand
all absent at the guarded outer level. -/
def amazonItemC2w : AmazonItem :=
  { item_info := some { title := some { display_value := some "Linen Shirt" }, by_line_info := none }
    detail_page_url := "https://amazon.example/shirt"
    offers := none
    images := none }

/-- Concrete normalized Amazon product used to exhibit the Amazon dict
shape. -/
def amazonProductC3 : AmazonProduct :=
  { title := "Test Item"
    url := "https://amazon.example/t"
    price := none
    image := none
    rating := none }

/-- Concrete admin-tier raw product with a first-variant price, used
for the price-normalization theorems. -/
def adminProductC4 : AdminProduct :=
  { id := some 1
    title := some "Coat"
    body_html := none
    handle := some "coat"
    variants := some [{ price := some "19.99" }]
    images := none }

/-- Concrete profile with one interest and no other signals. -/
def tdC8 : TwitterData :=
  { fashion_interests := ["casual"], color_preferences := [], recent_fashion_tweets := [] }

/-- Concrete profile used by the re-composition witness. -/
def tdC8w : TwitterData :=
  { fashion_interests := ["vintage"], color_preferences := [], recent_fashion_tweets := [] }

/-- Concrete profile with all three signal lists empty. -/
def tdC10 : TwitterData :=
  { fashion_interests := [], color_preferences := [], recent_fashion_tweets := [] }

/-- A non-empty string appended on the right keeps a string
non-empty. -/
theorem append_ne_empty_right (a b : String) (h : b.length ≠ 0) : a ++ b ≠ "" := by
  intro he
  have hlen := congrArg String.length he
  rw [String.length_append] at hlen
  simp at hlen
  omega

/-- A non-empty string appended on the left keeps a string
non-empty. -/
theorem append_ne_empty_left (a b : String) (h : a.length ≠ 0) : a ++ b ≠ "" := by
  intro he
  have hlen := congrArg String.length he
  rw [String.length_append] at hlen
  simp at hlen
  omega

/-- Claim C1: for every Shopify search call with an admin credential
configured, if the admin tier yields one or more products (a 200
response with a non-empty products list), the returned list equals
exactly the admin-tier normalized products and is independent of the
storefront result, so storefront rows are never merged in and the
storefront tier is attempted only on an empty admin result set. -/
theorem C1_admin_tier_precedence (storefront_headers : Bool) (base_url : String)
    (response : AdminResponse) (p : AdminProduct) (ps : List AdminProduct)
    (storefront_result storefront_result2 : Except Unit StorefrontResponse)
    (hstatus : response.status_code = 200) (hprod : response.products = some (p :: ps)) :
    ShopifyConnector.search_products true storefront_headers base_url (.ok response)
        storefront_result =
      (p :: ps).map (fun product => ShopifyRow.admin (normalizeAdminProduct base_url product)) ∧
    ShopifyConnector.search_products true storefront_headers base_url (.ok response)
        storefront_result =
      ShopifyConnector.search_products true storefront_headers base_url (.ok response)
        storefront_result2 := by
  constructor <;> simp [ShopifyConnector.search_products, hstatus, hprod]

/-- Witness for C1: a concrete admin response with one product and a
concrete live storefront response; the result is the admin
normalization and does not change when the storefront call raises
instead. -/
theorem C1_admin_tier_precedence_witness :
    ShopifyConnector.search_products true true "https://store.example"
        (.ok { status_code := 200, products := some [adminProductC1] })
        (.ok { status_code := 200, edges := some [storefrontNodeC1] }) =
      [adminProductC1].map
        (fun product => ShopifyRow.admin (normalizeAdminProduct "https://store.example" product)) ∧
    ShopifyConnector.search_products true true "https://store.example"
        (.ok { status_code := 200, products := some [adminProductC1] })
        (.ok { status_code := 200, edges := some [storefrontNodeC1] }) =
      ShopifyConnector.search_products true true "https://store.example"
        (.ok { status_code := 200, products := some [adminProductC1] })
        (.error ()) :=
  C1_admin_tier_precedence true "https://store.example"
    { status_code := 200, products := some [adminProductC1] } adminProductC1 []
    (.ok { status_code := 200, edges := some [storefrontNodeC1] }) (.error ()) rfl rfl

/-- Counterexample for C2: an item whose primary image is present but
whose large rendition is absent raises inside the extraction (the
unguarded access of src/app.py line 486); the exception is caught by
the function-level handler and the whole search returns None, so the
item is not returned with a null image field as the claim states. -/
theorem C2_counterexample :
    extractAmazonItem amazonItemC2 = .error () ∧
    search_amazon_products true (.ok { items := [amazonItemC2] }) 3 = none :=
  ⟨rfl, rfl⟩

/-- Claim C2 amended: field extraction is defensive only at the outer,
guarded level of each nested structure. When the price listing, the
primary image and the brand are absent at that guarded level (no
offers, no images object, no by-line info), the corresponding Product
fields are null and the item is still returned; deeper absences (a
primary image without a large rendition, a price with an amount but no
currency attribute) raise, and the function then returns None for the
whole search. -/
theorem C2_outer_level_defensive (item : AmazonItem) (dv : String)
    (hinfo : item.item_info = some { title := some { display_value := some dv }, by_line_info := none })
    (hoff : item.offers = none) (himg : item.images = none) :
    extractAmazonItem item = .ok
      { title := dv, url := item.detail_page_url, price := none, image := none, rating := none } ∧
    search_amazon_products true (.ok { items := [item] }) 3 = some
      [{ title := dv, url := item.detail_page_url, price := none, image := none, rating := none }] := by
  obtain ⟨ii, url, off, img⟩ := item
  simp only at hinfo hoff himg
  subst hinfo hoff himg
  exact ⟨rfl, rfl⟩

/-- Witness for C2 amended: a concrete item with no offers, no images
and no by-line info is returned with null price, image and rating. -/
theorem C2_outer_level_defensive_witness :
    extractAmazonItem amazonItemC2w = .ok
      { title := "Linen Shirt", url := "https://amazon.example/shirt",
        price := none, image := none, rating := none } ∧
    search_amazon_products true (.ok { items := [amazonItemC2w] }) 3 = some
      [{ title := "Linen Shirt", url := "https://amazon.example/shirt",
         price := none, image := none, rating := none }] :=
  C2_outer_level_defensive amazonItemC2w "Linen Shirt" rfl rfl rfl

/-- Counterexample for C3: the Amazon-path product dict does not have
the claimed normalized shape: its key list differs from the spec shape,
it has no source_catalog key and no image_url key (its image key is
named image and its price is a preformatted string). -/
theorem C3_counterexample :
    amazonProductC3.toDict.map Prod.fst ≠ specProductKeys ∧
    (amazonProductC3.toDict.map Prod.fst).contains "source_catalog" = false ∧
    (amazonProductC3.toDict.map Prod.fst).contains "image_url" = false := by
  decide

/-- Claim C3 amended: the two Shopify paths share the keys id, title,
description, url, price, image_url (the admin tier additionally carries
handle); price and image_url are explicitly null when absent; title is
always string-valued on both tiers and url is string-valued on the
admin tier, but the storefront url is nullable: a node whose
onlineStoreUrl key is present with a null value yields url null (the
handle-derived fallback applies only to an absent key); the Amazon path
instead produces keys title, url, price, image, rating, with price a
preformatted string or null; no path emits a source_catalog key. -/
theorem C3_per_path_shapes (a : AdminProductInfo) (s : StorefrontProductInfo)
    (am : AmazonProduct) :
    a.toDict.map Prod.fst = ["id", "title", "description", "handle", "url", "price", "image_url"] ∧
    s.toDict.map Prod.fst = ["id", "title", "description", "url", "price", "image_url"] ∧
    am.toDict.map Prod.fst = ["title", "url", "price", "image", "rating"] ∧
    a.toDict.lookup "source_catalog" = none ∧
    s.toDict.lookup "source_catalog" = none ∧
    am.toDict.lookup "source_catalog" = none ∧
    a.toDict.lookup "title" = some (.str a.title) ∧
    a.toDict.lookup "url" = some (.str a.url) ∧
    s.toDict.lookup "title" = some (.str s.title) ∧
    s.toDict.lookup "url" = some (optStr s.url) ∧
    am.toDict.lookup "title" = some (.str am.title) ∧
    am.toDict.lookup "url" = some (.str am.url) ∧
    a.toDict.lookup "price" = some (optPrice a.price) ∧
    s.toDict.lookup "price" = some (optPrice s.price) ∧
    a.toDict.lookup "image_url" = some (optStr a.image_url) ∧
    s.toDict.lookup "image_url" = some (optStr s.image_url) ∧
    am.toDict.lookup "price" = some (optStr am.price) ∧
    (normalizeStorefrontNode "https://store.example" storefrontNodeNullUrl).url = none ∧
    (normalizeStorefrontNode "https://store.example" storefrontNodeNullUrl).toDict.lookup "url" =
      some .null :=
  ⟨rfl, rfl, rfl, rfl, rfl, rfl, rfl, rfl, rfl, rfl, rfl, rfl, rfl, rfl, rfl, rfl, rfl, rfl, rfl⟩

/-- Counterexample for C4: for a store whose default currency is EUR,
the spec-modelled price (first variant price in the store default
currency) differs from what the code computes, because the code
hardcodes the literal USD (src/app.py line 137). -/
theorem C4_counterexample :
    specAdminPrice "EUR" adminProductC4 = some { amount := "19.99", currency := "EUR" } ∧
    (normalizeAdminProduct "https://store.example" adminProductC4).price =
      some { amount := "19.99", currency := "USD" } ∧
    (normalizeAdminProduct "https://store.example" adminProductC4).price ≠
      specAdminPrice "EUR" adminProductC4 := by
  decide

/-- Claim C4 amended: for every product normalized by the Shopify admin
tier whose variants list is non-empty and whose first variant has a
truthy price, the Product price is that first-variant price with the
currency hardcoded to the literal USD, regardless of the store default
currency. -/
theorem C4_first_variant_price_hardcoded_usd (base_url : String) (product : AdminProduct)
    (variant : AdminVariant) (vs : List AdminVariant) (p : String)
    (hv : product.variants = some (variant :: vs)) (hp : variant.price = some p)
    (hne : p ≠ "") :
    (normalizeAdminProduct base_url product).price = some { amount := p, currency := "USD" } := by
  simp [normalizeAdminProduct, hv, hp, hne]

/-- Witness for C4 amended: the concrete product with first-variant
price 19.99 normalizes to amount 19.99 with currency USD. -/
theorem C4_first_variant_price_hardcoded_usd_witness :
    (normalizeAdminProduct "https://store.example" adminProductC4).price =
      some { amount := "19.99", currency := "USD" } :=
  C4_first_variant_price_hardcoded_usd "https://store.example" adminProductC4
    { price := some "19.99" } [] "19.99" rfl rfl (by decide)

/-- Claim C5: the generative primary path is parsed by comma-split when
it returns, and the regex fallback over the lowercased text runs when
and only when the primary call raises; every fallback phrase that
survives the filter has length at least 6; and for a text containing
the words red wool sweater the fallback yields a phrase containing
sweater with length at least 6. -/
theorem C5_fallback_extraction (recommendation_text : String) :
    (∀ s : String, extract_search_terms (.ok s) recommendation_text = parsePrimaryTerms s) ∧
    (∀ e : String, extract_search_terms (.error e) recommendation_text =
      fallbackGarmentTerms recommendation_text) ∧
    (∀ item ∈ fallbackGarmentTerms recommendation_text, 6 ≤ item.length) ∧
    (∃ item ∈ fallbackGarmentTerms "My red wool sweater.",
      containsSeq ("sweater".data) item.data = true ∧ 6 ≤ item.length) := by
  refine ⟨fun s => rfl, fun e => rfl, ?_, ?_⟩
  · intro item hmem
    simp only [fallbackGarmentTerms] at hmem
    have h := List.mem_filter.mp hmem
    have hlt := of_decide_eq_true h.2
    omega
  · exact ⟨"my red wool sweater", by decide, by decide, by decide⟩

/-- Witness for C5: with a raising primary call the extraction answers
with the fallback terms, and the concrete surviving phrase has length
at least 6. -/
theorem C5_fallback_extraction_witness :
    extract_search_terms (.error "call failed") "My red wool sweater." =
      fallbackGarmentTerms "My red wool sweater." ∧
    6 ≤ ("my red wool sweater" : String).length :=
  ⟨(C5_fallback_extraction "My red wool sweater.").2.1 "call failed",
   (C5_fallback_extraction "My red wool sweater.").2.2.1 "my red wool sweater" (by decide)⟩

/-- Claim C6: when the profile data is None the composed prompt equals
the base prompt unchanged and the personalization-used flag is
false. -/
theorem C6_none_profile_identity (base_prompt : String) :
    enhance_prompt_with_twitter_data base_prompt none = base_prompt ∧
    (analyze_image_prompt base_prompt none).augmented_text = base_prompt ∧
    (analyze_image_prompt base_prompt none).used_personalization = false :=
  ⟨rfl, rfl, rfl⟩

/-- Claim C7: for every base prompt and non-None profile, the composed
prompt appends, after a fixed header, exactly the present component
sentences in fixed order (interests, colors, at most 3 snippets), each
present component being one non-empty sentence and absent components
contributing nothing. -/
theorem C7_fixed_order_components (base_prompt : String) (td : TwitterData) :
    enhance_prompt_with_twitter_data base_prompt (some td) =
      appendContext base_prompt
        (sentenceIf (!td.fashion_interests.isEmpty) (interestsSentence td) ++
         sentenceIf (!td.color_preferences.isEmpty) (colorsSentence td) ++
         sentenceIf (!td.recent_fashion_tweets.isEmpty) (tweetsSentence td)) ∧
    interestsSentence td ≠ "" ∧ colorsSentence td ≠ "" ∧ tweetsSentence td ≠ "" ∧
    (td.recent_fashion_tweets.take 3).length ≤ 3 := by
  refine ⟨?_, ?_, ?_, ?_, ?_⟩
  · cases h1 : td.fashion_interests.isEmpty <;>
      cases h2 : td.color_preferences.isEmpty <;>
      cases h3 : td.recent_fashion_tweets.isEmpty <;>
      simp [enhance_prompt_with_twitter_data, twitterContext, appendContext, sentenceIf,
        interestsSentence, colorsSentence, tweetsSentence, h1, h2, h3]
  · exact append_ne_empty_right _ "." (by decide)
  · exact append_ne_empty_right _ "." (by decide)
  · exact append_ne_empty_left "Based on recent Twitter activity, the user has mentioned: " _
      (by decide)
  · exact List.length_take_le 3 td.recent_fashion_tweets

/-- Counterexample for C8: re-composing the already-composed output
with the same profile appends the personalization suffix a second time,
so the result differs from composing once. -/
theorem C8_counterexample :
    enhance_prompt_with_twitter_data
        (enhance_prompt_with_twitter_data "Analyze this outfit." (some tdC8)) (some tdC8) ≠
      enhance_prompt_with_twitter_data "Analyze this outfit." (some tdC8) := by
  decide

/-- Claim C8 amended: composition is deterministic (it is a pure
function of base and profile), and re-composing the composed output is
a no-op exactly when the profile contributes no context sentences;
when the profile contributes context, re-composition appends the
personalization header and context a second time. -/
theorem C8_deterministic_not_idempotent (base_prompt : String) (td : TwitterData) :
    (twitterContext td = [] →
      enhance_prompt_with_twitter_data
          (enhance_prompt_with_twitter_data base_prompt (some td)) (some td) =
        enhance_prompt_with_twitter_data base_prompt (some td)) ∧
    (twitterContext td ≠ [] →
      enhance_prompt_with_twitter_data
          (enhance_prompt_with_twitter_data base_prompt (some td)) (some td) =
        enhance_prompt_with_twitter_data base_prompt (some td) ++
          "\n\nConsider the user\x27s personal style preferences based on Twitter data: " ++
          String.intercalate " " (twitterContext td)) := by
  constructor
  · intro h
    simp [enhance_prompt_with_twitter_data, h]
  · intro h
    cases hc : twitterContext td with
    | nil => exact absurd hc h
    | cons x xs => simp [enhance_prompt_with_twitter_data, hc]

/-- Witness for C8 amended: a concrete profile with one interest; the
re-composed output is the composed output with the suffix repeated. -/
theorem C8_deterministic_not_idempotent_witness :
    enhance_prompt_with_twitter_data
        (enhance_prompt_with_twitter_data "Base." (some tdC8w)) (some tdC8w) =
      enhance_prompt_with_twitter_data "Base." (some tdC8w) ++
        "\n\nConsider the user\x27s personal style preferences based on Twitter data: " ++
        String.intercalate " " (twitterContext tdC8w) :=
  (C8_deterministic_not_idempotent "Base." tdC8w).2 (by decide)

/-- Claim C9: the profile enricher returns None rather than raising
when no client is configured or when the single fetch attempt raises,
and it performs no retry: the outcome depends only on the first
attempt. -/
theorem C9_fail_soft_no_retry (attempts attempts2 : Nat → Except String TwitterData) :
    get_twitter_style_data false attempts = none ∧
    (∀ e : String, attempts 0 = .error e → get_twitter_style_data true attempts = none) ∧
    (attempts 0 = attempts2 0 →
      ∀ c : Bool, get_twitter_style_data c attempts = get_twitter_style_data c attempts2) := by
  refine ⟨rfl, ?_, ?_⟩
  · intro e he
    simp [get_twitter_style_data, he]
  · intro h c
    cases c <;> simp [get_twitter_style_data, h]

/-- Witness for C9: a concrete raising fetch attempt yields None with a
configured client. -/
theorem C9_fail_soft_no_retry_witness :
    get_twitter_style_data true (fun _ => .error "connector down") = none :=
  (C9_fail_soft_no_retry (fun _ => .error "connector down")
    (fun _ => .error "connector down")).2.1 "connector down" rfl

/-- Claim C10: a non-None profile whose three signal lists are all
empty leaves the composed prompt equal to the base prompt while the
handler still sets the personalization-used flag to true. -/
theorem C10_empty_signals_flag_true (base_prompt : String) (td : TwitterData)
    (h1 : td.fashion_interests = []) (h2 : td.color_preferences = [])
    (h3 : td.recent_fashion_tweets = []) :
    (analyze_image_prompt base_prompt (some td)).augmented_text = base_prompt ∧
    (analyze_image_prompt base_prompt (some td)).used_personalization = true := by
  constructor
  · simp [analyze_image_prompt, enhance_prompt_with_twitter_data, twitterContext, h1, h2, h3]
  · rfl

/-- Witness for C10: the concrete all-empty profile keeps the base
prompt and still flags personalization as used. -/
theorem C10_empty_signals_flag_true_witness :
    (analyze_image_prompt "Analyze this outfit." (some tdC10)).augmented_text =
      "Analyze this outfit." ∧
    (analyze_image_prompt "Analyze this outfit." (some tdC10)).used_personalization = true :=
  C10_empty_signals_flag_true "Analyze this outfit." tdC10 rfl rfl rfl
